import Mathlib

/-!
Verification of the `endpoints` Kubernetes round-robin load balancer
(package `endpoints`, file `endpoints.go`) against its design
specification, via a shallow embedding of the Go code in Lean 4.

Machine integers (`int`, `int32`, `time.Duration`) are modelled as `Int`
except the round-robin cursor `currentEndpoint`, which the code only ever
sets to `0` or increments, so it is a `Nat`.  External handles (the HTTP
client, the error logger) are modelled as abstract inhabitants; network
and JSON-decoding effects are passed in as explicit oracle functions.
-/

namespace Endpoints

/-- Abstract model of a Go `*http.Client` handle: either the package-level
`http.DefaultClient` or some other client distinguished by an id. -/
inductive HClient
  | defaultClient
  | custom (id : Nat)
deriving DecidableEq

/-- Abstract model of a Go `*log.Logger` handle: either the stderr logger
built by `setDefaults`, or some caller-supplied logger. -/
inductive ELog
  | stderrLogger
  | custom (id : Nat)
deriving DecidableEq

/-- `SyncError` from endpoints.go: URL used, description, remote status code. -/
structure SyncError where
  URL : String
  Message : String
  Code : Int
deriving DecidableEq

/-- The Go `error` values produced by the package: the two sentinel errors
`ErrNoEndpoints` and `ErrMissingServiceName`, transport errors wrapped by
`get`, and `*SyncError` remote errors. -/
inductive GoError
  | noEndpoints
  | missingServiceName
  | transport (msg : String)
  | sync (e : SyncError)
deriving DecidableEq

/-- `Endpoint` from endpoints.go: Host, Port, and the named-port map
(a Go `map[string]string`, modelled as an association list whose
`mapSet` insertion mirrors map assignment). -/
structure Endpoint where
  Host : String
  Port : String
  Ports : List (String × String)
deriving DecidableEq

/-- The zero value `Endpoint{}` returned by `Next` on an empty set. -/
def Endpoint.zero : Endpoint := { Host := "", Port := "", Ports := [] }

/-- `LoadBalancer` from endpoints.go, restricted to the fields visible to a
shallow embedding (the mutex, quit channel and wait group carry no data).
`nspace` stands for the Go field `namespace`, a reserved word in Lean. -/
structure LoadBalancer where
  apiAddr : String
  client : Option HClient
  errorLog : Option ELog
  nspace : String
  retryDelay : Int
  service : String
  syncInterval : Int
  currentEndpoint : Nat
  endpoints : List Endpoint
deriving DecidableEq

/-- The cursor value actually used by `Next` after the bounds check on
lines 145-147 of endpoints.go: reset to 0 when it is at or past the end. -/
def normCursor (lb : LoadBalancer) : Nat :=
  if lb.endpoints.length ≤ lb.currentEndpoint then 0 else lb.currentEndpoint

/-- `LoadBalancer.Next` from endpoints.go (lines 139-151).  Go returns the
pair `(Endpoint, error)`; the state change to `currentEndpoint` is returned
as the second component.  The list access `lb.endpoints[lb.currentEndpoint]`
is modelled with `getD`; `next_index_in_range` below shows the default is
never taken. -/
def Next (lb : LoadBalancer) : (Endpoint × Option GoError) × LoadBalancer :=
  if lb.endpoints.length ≤ 0 then
    ((Endpoint.zero, some GoError.noEndpoints), lb)
  else
    let cur := normCursor lb
    ((lb.endpoints.getD cur Endpoint.zero, none),
      { lb with currentEndpoint := cur + 1 })

/-- `n` consecutive calls to `Next`, collecting each call's result pair. -/
def runNext : Nat → LoadBalancer → List (Endpoint × Option GoError) × LoadBalancer
  | 0, lb => ([], lb)
  | n + 1, lb =>
    let r := Next lb
    let rest := runNext n r.2
    (r.1 :: rest.1, rest.2)

theorem normCursor_lt (lb : LoadBalancer) (h : 0 < lb.endpoints.length) :
    normCursor lb < lb.endpoints.length := by
  unfold normCursor
  split
  · exact h
  · omega

theorem next_empty (lb : LoadBalancer) (h : lb.endpoints = []) :
    Next lb = ((Endpoint.zero, some GoError.noEndpoints), lb) := by
  unfold Next
  split
  · rfl
  · simp [h] at *

theorem next_nonempty (lb : LoadBalancer) (h : 0 < lb.endpoints.length) :
    Next lb = ((lb.endpoints.getD (normCursor lb) Endpoint.zero, none),
      { lb with currentEndpoint := normCursor lb + 1 }) := by
  unfold Next
  split
  · omega
  · rfl

/-- C4: on an empty backend set, `Next` fails with `ErrNoEndpoints`,
returns the zero `Endpoint`, leaves the state untouched, and performs no
list access at all (the function returns before the indexing line). -/
theorem c4_next_empty (lb : LoadBalancer) (h : lb.endpoints = []) :
    Next lb = ((Endpoint.zero, some GoError.noEndpoints), lb) :=
  next_empty lb h

theorem c4_next_empty_witness :
    Next { apiAddr := "", client := none, errorLog := none, nspace := "",
           retryDelay := 0, service := "", syncInterval := 0,
           currentEndpoint := 3, endpoints := [] }
      = ((Endpoint.zero, some GoError.noEndpoints),
         { apiAddr := "", client := none, errorLog := none, nspace := "",
           retryDelay := 0, service := "", syncInterval := 0,
           currentEndpoint := 3, endpoints := [] }) :=
  c4_next_empty _ rfl

/-- C5: when the set shrank so the cursor `k` is at or past the new length
`m` (with the set non-empty), `Next` returns the backend at index 0, sets
the cursor to 1, and the index it reads is in range. -/
theorem c5_shrink_safety (lb : LoadBalancer) (k m : Nat)
    (hk : lb.currentEndpoint = k) (hm : lb.endpoints.length = m)
    (h0 : 0 < m) (hs : m ≤ k) :
    (Next lb).1 = (lb.endpoints.getD 0 Endpoint.zero, none)
    ∧ (Next lb).2.currentEndpoint = 1
    ∧ (Next lb).2.endpoints = lb.endpoints
    ∧ normCursor lb < lb.endpoints.length := by
  have hcur : normCursor lb = 0 := by
    unfold normCursor
    split
    · rfl
    · omega
  have hne : 0 < lb.endpoints.length := by omega
  rw [next_nonempty lb hne, hcur]
  exact ⟨rfl, rfl, rfl, hne⟩

theorem c5_shrink_safety_witness :
    (Next { apiAddr := "", client := none, errorLog := none, nspace := "",
            retryDelay := 0, service := "", syncInterval := 0,
            currentEndpoint := 5,
            endpoints := [{ Host := "a", Port := "80", Ports := [] },
                          { Host := "b", Port := "80", Ports := [] }] }).1
      = ({ Host := "a", Port := "80", Ports := [] }, none) :=
  (c5_shrink_safety
    { apiAddr := "", client := none, errorLog := none, nspace := "",
      retryDelay := 0, service := "", syncInterval := 0,
      currentEndpoint := 5,
      endpoints := [{ Host := "a", Port := "80", Ports := [] },
                    { Host := "b", Port := "80", Ports := [] }] }
    5 2 rfl rfl (by decide) (by decide)).1

/-- Sample backends used to instantiate hypotheses at concrete inputs. -/
def epA : Endpoint := { Host := "10.0.0.1", Port := "80", Ports := [] }

def epB : Endpoint := { Host := "10.0.0.2", Port := "80", Ports := [] }

def epC : Endpoint := { Host := "10.0.0.3", Port := "80", Ports := [] }

/-- A fully populated sample load balancer with three distinct backends and
an out-of-range cursor. -/
def lbABC : LoadBalancer :=
  { apiAddr := "127.0.0.1:8001", client := some HClient.defaultClient,
    errorLog := some ELog.stderrLogger, nspace := "default",
    retryDelay := 5000000000, service := "svc",
    syncInterval := 30000000000, currentEndpoint := 7,
    endpoints := [epA, epB, epC] }

/-- C6 counterexample: the claim says the cursor after `Next` differs from
the cursor before for every pre-state; on an empty backend set `Next`
returns on line 143 before touching the cursor, so the cursor is
unchanged. -/
theorem c6_counterexample :
    ¬ (∀ lb : LoadBalancer,
        ((Next lb).2).currentEndpoint ≠ lb.currentEndpoint) := by
  intro h
  exact h { apiAddr := "", client := none, errorLog := none, nspace := "",
            retryDelay := 0, service := "", syncInterval := 0,
            currentEndpoint := 0, endpoints := [] } rfl

/-- C6 amended: on an empty set `Next` fails without touching the cursor;
on a non-empty set it sets the cursor to the normalized index plus one.
Consequently the cursor changes exactly when the set is non-empty and it is
not the case that the set has length 1 with the cursor already at 1. -/
theorem c6_cursor_mutation (lb : LoadBalancer) :
    (lb.endpoints = [] → (Next lb).2 = lb)
    ∧ (lb.endpoints ≠ [] →
        (Next lb).2.currentEndpoint = normCursor lb + 1)
    ∧ ((Next lb).2.currentEndpoint ≠ lb.currentEndpoint ↔
        (lb.endpoints ≠ [] ∧
          ¬(lb.endpoints.length = 1 ∧ lb.currentEndpoint = 1))) := by
  by_cases h : lb.endpoints = []
  · rw [next_empty lb h]
    simp [h]
  · have hl : 0 < lb.endpoints.length := List.length_pos.mpr h
    rw [next_nonempty lb hl]
    refine ⟨fun h2 => absurd h2 h, fun _ => rfl, ?_⟩
    show normCursor lb + 1 ≠ lb.currentEndpoint ↔ _
    rw [← List.length_pos]
    unfold normCursor
    split <;> omega

theorem c6_cursor_mutation_witness :
    ((Next lbABC).2).currentEndpoint = normCursor lbABC + 1 :=
  (c6_cursor_mutation lbABC).2.1 (by decide)

theorem normCursor_next (lb : LoadBalancer) (h : 0 < lb.endpoints.length) :
    normCursor ((Next lb).2) = (normCursor lb + 1) % lb.endpoints.length := by
  have hs : normCursor lb < lb.endpoints.length := normCursor_lt lb h
  rw [next_nonempty lb h]
  show (if lb.endpoints.length ≤ normCursor lb + 1 then 0
        else normCursor lb + 1) = _
  split
  · have heq : normCursor lb + 1 = lb.endpoints.length := by omega
    rw [heq, Nat.mod_self]
  · rw [Nat.mod_eq_of_lt (by omega)]

theorem runNext_formula (n : Nat) (lb : LoadBalancer)
    (h : 0 < lb.endpoints.length) :
    (runNext n lb).1 = (List.range n).map
      (fun i => (lb.endpoints.getD
        ((normCursor lb + i) % lb.endpoints.length) Endpoint.zero,
        (none : Option GoError))) := by
  induction n generalizing lb with
  | zero => simp [runNext]
  | succ n ih =>
    have hs : normCursor lb < lb.endpoints.length := normCursor_lt lb h
    have hnext := next_nonempty lb h
    have hlb1ep : ((Next lb).2).endpoints = lb.endpoints := by rw [hnext]
    have h1 : 0 < ((Next lb).2).endpoints.length := by rw [hlb1ep]; exact h
    have hnc1 : normCursor ((Next lb).2)
        = (normCursor lb + 1) % lb.endpoints.length := normCursor_next lb h
    show ((Next lb).1 :: (runNext n (Next lb).2).1) = _
    rw [ih ((Next lb).2) h1, List.range_succ_eq_map, List.map_cons]
    simp only [hlb1ep, hnc1]
    congr 1
    · rw [hnext]
      simp [Nat.mod_eq_of_lt hs]
    · rw [List.map_map]
      apply List.map_congr_left
      intro i _
      simp only [Function.comp]
      congr 2
      rw [Nat.mod_add_mod]
      congr 1
      omega

theorem getD_map_range {α : Type} (f : Nat → α) (d : α) (n k : Nat)
    (hk : k < n) : ((List.range n).map f).getD k d = f k := by
  have h : k < ((List.range n).map f).length := by simpa using hk
  rw [List.getD_eq_getElem _ _ h, List.getElem_map, List.getElem_range]

theorem range_map_getD_rotate (l : List Endpoint) (s : Nat)
    (hs : s < l.length) :
    (List.range l.length).map
        (fun i => l.getD ((s + i) % l.length) Endpoint.zero)
      = l.rotate s := by
  have hl : 0 < l.length := by omega
  apply List.ext_getElem
  · simp [List.length_rotate]
  · intro n h1 h2
    have hin : (s + n) % l.length < l.length := Nat.mod_lt _ hl
    rw [List.getElem_map, List.getElem_range, List.getElem_rotate,
      List.getD_eq_getElem _ _ hin]
    congr 1
    rw [Nat.add_comm]

/-- C1: for a stable set of `N` distinct backends and any starting cursor,
`N + 1` consecutive `Next` calls all succeed and return the backends in
cyclic insertion order starting from the normalized cursor (the `i`-th call
returns the backend at index `(normCursor + i) mod N`); in particular the
first `N` calls return each backend exactly once and the `(N+1)`-th call
repeats the first. -/
theorem c1_round_robin (lb : LoadBalancer) (N : Nat)
    (hN : lb.endpoints.length = N) (h0 : 0 < N)
    (hnd : lb.endpoints.Nodup) :
    (runNext (N + 1) lb).1 = (List.range (N + 1)).map
        (fun i => (lb.endpoints.getD ((normCursor lb + i) % N) Endpoint.zero,
          (none : Option GoError)))
    ∧ (∀ e ∈ lb.endpoints,
        List.count e ((runNext N lb).1.map Prod.fst) = 1)
    ∧ (runNext (N + 1) lb).1.getD N (Endpoint.zero, none)
        = (runNext (N + 1) lb).1.getD 0 (Endpoint.zero, none) := by
  subst hN
  have hL : 0 < lb.endpoints.length := h0
  have hs : normCursor lb < lb.endpoints.length := normCursor_lt lb hL
  have hf := runNext_formula (lb.endpoints.length + 1) lb hL
  have hfN := runNext_formula lb.endpoints.length lb hL
  refine ⟨hf, ?_, ?_⟩
  · intro e he
    rw [hfN, List.map_map]
    have hcomp : (List.range lb.endpoints.length).map
        (Prod.fst ∘ fun i => (lb.endpoints.getD
          ((normCursor lb + i) % lb.endpoints.length) Endpoint.zero,
          (none : Option GoError)))
        = (List.range lb.endpoints.length).map
          (fun i => lb.endpoints.getD
            ((normCursor lb + i) % lb.endpoints.length) Endpoint.zero) :=
      List.map_congr_left (fun a _ => rfl)
    rw [hcomp, range_map_getD_rotate lb.endpoints (normCursor lb) hs,
      (List.rotate_perm lb.endpoints (normCursor lb)).count_eq]
    exact List.count_eq_one_of_mem hnd he
  · rw [hf, getD_map_range _ _ _ _ (by omega),
      getD_map_range _ _ _ _ (by omega)]
    simp [Nat.add_mod_right, Nat.mod_eq_of_lt hs]

theorem c1_round_robin_witness :
    (runNext (3 + 1) lbABC).1.getD 3 (Endpoint.zero, none)
      = (runNext (3 + 1) lbABC).1.getD 0 (Endpoint.zero, none) :=
  (c1_round_robin lbABC 3 rfl (by decide) (by decide)).2.2

/-- `LoadBalancer.update` from endpoints.go (lines 209-213): a single
atomic replacement of the backend set under the write lock. -/
def update (lb : LoadBalancer) (endpoints : List Endpoint) : LoadBalancer :=
  { lb with endpoints := endpoints }

/-- C8: `update` replaces the backend set wholesale and changes nothing
else: the cursor and every configuration field keep their prior values. -/
theorem c8_update_frame (lb : LoadBalancer) (eps : List Endpoint) :
    (update lb eps).endpoints = eps
    ∧ (update lb eps).currentEndpoint = lb.currentEndpoint
    ∧ (update lb eps).apiAddr = lb.apiAddr
    ∧ (update lb eps).client = lb.client
    ∧ (update lb eps).errorLog = lb.errorLog
    ∧ (update lb eps).nspace = lb.nspace
    ∧ (update lb eps).retryDelay = lb.retryDelay
    ∧ (update lb eps).service = lb.service
    ∧ (update lb eps).syncInterval = lb.syncInterval :=
  ⟨rfl, rfl, rfl, rfl, rfl, rfl, rfl, rfl, rfl⟩

/-- Modelled from the spec: the registry object decoded from the
endpoints resource, `subsets: [...addresses: [...ip], ports: [...name?,
port]]` (spec section 6). The Go struct declarations live in a types file
absent from src; the field usage is pinned by `formatEndpoints`. -/
structure EndpointAddress where
  IP : String
deriving DecidableEq

/-- Modelled from the spec: one port entry of a subset; an absent name
decodes to the Go zero value, the empty string. -/
structure EndpointPort where
  Name : String
  Port : Int
deriving DecidableEq

/-- Modelled from the spec: one address subset of the registry object. -/
structure EndpointSubset where
  Addresses : List EndpointAddress
  Ports : List EndpointPort
deriving DecidableEq

/-- Modelled from the spec: the registry object (Go type `endpoints`). -/
structure EndpointsObject where
  Subsets : List EndpointSubset
deriving DecidableEq

/-- Go map assignment `m[k] = v` on a `map[string]string`, modelled on an
association list: replaces an existing binding in place, otherwise appends
the new binding. -/
def mapSet : List (String × String) → String → String → List (String × String)
  | [], k, v => [(k, v)]
  | (k', v') :: rest, k, v =>
    if k' = k then (k, v) :: rest else (k', v') :: mapSet rest k v

/-- The named-port map built by the loop on lines 361-365 of endpoints.go:
every port of the subset with a non-empty name is written into the map. -/
def namedPorts (ps : List EndpointPort) : List (String × String) :=
  ps.foldl
    (fun m p => if p.Name ≠ "" then mapSet m p.Name (toString p.Port) else m)
    []

/-- `formatEndpoints` from endpoints.go (lines 351-377).
`strconv.FormatInt(_, 10)` agrees with `toString` on `Int`. -/
def formatEndpoints (endpoints : EndpointsObject) : List Endpoint :=
  match endpoints.Subsets with
  | [] => []
  | s0 :: _ =>
    let port := match s0.Ports with
      | [] => ""
      | p0 :: _ => toString p0.Port
    let ports := namedPorts s0.Ports
    s0.Addresses.map (fun a => { Host := a.IP, Port := port, Ports := ports })

/-- `fmt.Sprintf(endpointsPath, namespace, service)` from endpoints.go. -/
def endpointsPath (nspace service : String) : String :=
  "/api/v1/namespaces/" ++ nspace ++ "/endpoints/" ++ service

/-- `LoadBalancer.syncEndpoints` from endpoints.go (lines 230-245).  The
network fetch plus JSON decode (`get` and `json.Decode`) is passed in as an
oracle from request path to either an error or the decoded registry
object.  Returns the new state, the Go error result, and the list of
request paths issued, in order. -/
def syncEndpoints (lb : LoadBalancer)
    (fetchDecode : String → Except GoError EndpointsObject) :
    LoadBalancer × Option GoError × List String :=
  let path := endpointsPath lb.nspace lb.service
  match fetchDecode path with
  | .error e => (lb, some e, [path])
  | .ok eps => (update lb (formatEndpoints eps), none, [path])

/-- `LoadBalancer.SyncEndpoints` from endpoints.go (lines 163-168). -/
def SyncEndpoints (lb : LoadBalancer)
    (fetchDecode : String → Except GoError EndpointsObject) :
    LoadBalancer × Option GoError × List String :=
  if lb.service = "" then (lb, some GoError.missingServiceName, [])
  else syncEndpoints lb fetchDecode

/-- `LoadBalancer.StartBackgroundSync` from endpoints.go (lines 172-186):
the service-name guard and whether the two background loops were started.
The function itself issues no request and never writes the backend set or
the cursor, so the state is returned unchanged. -/
def StartBackgroundSync (lb : LoadBalancer) :
    LoadBalancer × Option GoError × Bool :=
  if lb.service = "" then (lb, some GoError.missingServiceName, false)
  else (lb, none, true)

/-- C7: with an empty service name, `SyncEndpoints` fails with
`ErrMissingServiceName` issuing no request and leaving the state (backend
set and cursor included) unchanged, and `StartBackgroundSync` fails the
same way without starting the background loops. -/
theorem c7_missing_service_name (lb : LoadBalancer)
    (fetchDecode : String → Except GoError EndpointsObject)
    (h : lb.service = "") :
    SyncEndpoints lb fetchDecode = (lb, some GoError.missingServiceName, [])
    ∧ StartBackgroundSync lb = (lb, some GoError.missingServiceName, false) := by
  constructor <;> simp [SyncEndpoints, StartBackgroundSync, h]

/-- A sample load balancer whose service name is unset. -/
def lbNoSvc : LoadBalancer :=
  { apiAddr := "127.0.0.1:8001", client := some HClient.defaultClient,
    errorLog := some ELog.stderrLogger, nspace := "default",
    retryDelay := 5000000000, service := "",
    syncInterval := 30000000000, currentEndpoint := 0,
    endpoints := [epA] }

theorem c7_missing_service_name_witness :
    SyncEndpoints lbNoSvc (fun _ => Except.error (GoError.transport "unused"))
      = (lbNoSvc, some GoError.missingServiceName, []) :=
  (c7_missing_service_name lbNoSvc
    (fun _ => Except.error (GoError.transport "unused")) rfl).1

theorem mapSet_not_mem (m : List (String × String)) (k v : String)
    (h : k ∉ m.map Prod.fst) : mapSet m k v = m ++ [(k, v)] := by
  induction m with
  | nil => rfl
  | cons hd tl ih =>
    obtain ⟨k1, v1⟩ := hd
    simp only [List.map_cons, List.mem_cons] at h
    push_neg at h
    simp only [mapSet]
    rw [if_neg (fun he => h.1 he.symm)]
    rw [ih h.2]
    simp

theorem namedPorts_aux (ps : List EndpointPort) (m : List (String × String))
    (hnd : ((ps.filter (fun p => p.Name ≠ "")).map
      (fun p => p.Name)).Nodup)
    (hdisj : ∀ p ∈ ps, p.Name ≠ "" → p.Name ∉ m.map Prod.fst) :
    ps.foldl
        (fun m p =>
          if p.Name ≠ "" then mapSet m p.Name (toString p.Port) else m) m
      = m ++ (ps.filter (fun p => p.Name ≠ "")).map
          (fun p => (p.Name, toString p.Port)) := by
  induction ps generalizing m with
  | nil => simp
  | cons p ps ih =>
    by_cases hp : p.Name = ""
    · rw [List.foldl_cons, if_neg (by simp [hp]),
        List.filter_cons_of_neg (by simp [hp])]
      rw [List.filter_cons_of_neg (by simp [hp])] at hnd
      exact ih m hnd (fun q hq => hdisj q (List.mem_cons_of_mem p hq))
    · rw [List.foldl_cons, if_pos (by simp [hp]),
       List.filter_cons_of_pos (by simp [hp])]
      rw [List.filter_cons_of_pos (by simp [hp])] at hnd
      simp only [List.map_cons, List.nodup_cons] at hnd
      rw [mapSet_not_mem m p.Name _ (hdisj p (List.mem_cons_self p ps) hp)]
      rw [ih (m ++ [(p.Name, toString p.Port)]) hnd.2 ?_]
      · simp
      · intro q hq hqn
        simp only [List.map_append, List.mem_append, List.map_cons,
          List.map_nil, List.mem_singleton, not_or]
        refine ⟨hdisj q (List.mem_cons_of_mem p hq) hqn, ?_⟩
        intro hcontra
        refine hnd.1 (by
          rw [← hcontra]
          refine List.mem_map_of_mem (fun p => p.Name)
            (List.mem_filter.mpr ⟨hq, ?_⟩)
          simpa using hqn)

theorem namedPorts_eq (ps : List EndpointPort)
    (hnd : ((ps.filter (fun p => p.Name ≠ "")).map
      (fun p => p.Name)).Nodup) :
    namedPorts ps = (ps.filter (fun p => p.Name ≠ "")).map
      (fun p => (p.Name, toString p.Port)) := by
  have h := namedPorts_aux ps [] hnd (by simp)
  simpa [namedPorts] using h

/-- Sample registry object: one subset with two addresses, an unnamed port
80 and a named port metrics 9090. -/
def subsetEx : EndpointSubset :=
  { Addresses := [⟨"10.0.0.1"⟩, ⟨"10.0.0.2"⟩],
    Ports := [⟨"", 80⟩, ⟨"metrics", 9090⟩] }

def registryEx : EndpointsObject := { Subsets := [subsetEx] }

/-- C2: the transform is a pure function; a registry object with zero
subsets yields the empty backend set; otherwise only the first subset is
used and, for distinct named-port names, every address of that subset
becomes one Backend whose Host is the address IP, whose Port is the first
listed port rendered in decimal (empty if the subset has no ports), and
whose named-port map holds exactly the non-empty-named ports.  The third
conjunct is the concrete example of the claim. -/
theorem c2_format_endpoints :
    (∀ e : EndpointsObject, e.Subsets = [] → formatEndpoints e = [])
    ∧ (∀ (e : EndpointsObject) (s0 : EndpointSubset)
        (rest : List EndpointSubset), e.Subsets = s0 :: rest →
        ((s0.Ports.filter (fun p => p.Name ≠ "")).map
          (fun p => p.Name)).Nodup →
        formatEndpoints e = s0.Addresses.map (fun a =>
          { Host := a.IP,
            Port := match s0.Ports with
              | [] => ""
              | p0 :: _ => toString p0.Port,
            Ports := (s0.Ports.filter (fun p => p.Name ≠ "")).map
              (fun p => (p.Name, toString p.Port)) }))
    ∧ formatEndpoints registryEx =
        [{ Host := "10.0.0.1", Port := "80",
           Ports := [("metrics", "9090")] },
         { Host := "10.0.0.2", Port := "80",
           Ports := [("metrics", "9090")] }] := by
  refine ⟨?_, ?_, ?_⟩
  · intro e he
    simp [formatEndpoints, he]
  · intro e s0 rest he hnd
    simp only [formatEndpoints, he]
    rw [namedPorts_eq s0.Ports hnd]
  · decide

theorem c2_format_endpoints_witness :
    formatEndpoints registryEx = subsetEx.Addresses.map (fun a =>
      { Host := a.IP,
        Port := match subsetEx.Ports with
          | [] => ""
          | p0 :: _ => toString p0.Port,
        Ports := (subsetEx.Ports.filter (fun p => p.Name ≠ "")).map
          (fun p => (p.Name, toString p.Port)) }) :=
  c2_format_endpoints.2.1 registryEx subsetEx [] rfl (by decide)

/-- Modelled from the spec: the HTTP response handed back by the client,
as far as `get` inspects it: the status code and the outcome of reading
the whole body (`ioutil.ReadAll`). -/
structure HttpResponse where
  statusCode : Int
  bodyRead : Except String String

/-- Modelled from the spec: the structured remote-error payload
`message, code` decoded by `json.Unmarshal` in `get` (Go type `status`,
declared in a types file absent from src). -/
structure RStatus where
  message : String
  code : Int
deriving DecidableEq

/-- `LoadBalancer.get` from endpoints.go (lines 314-349), with the network
send (`client.Do`) and the JSON decode of the status payload passed in as
oracles.  On status 200 the open body is handed back to the caller
unread. -/
def get (url : String) (doResp : Except String HttpResponse)
    (decodeStatus : String → Except String RStatus) :
    Except GoError HttpResponse :=
  match doResp with
  | .error msg => .error (.transport ("endpoints: " ++ msg))
  | .ok resp =>
    if resp.statusCode ≠ 200 then
      match resp.bodyRead with
      | .error m => .error (.sync ⟨url, m, resp.statusCode⟩)
      | .ok d =>
        match decodeStatus d with
        | .error m => .error (.sync ⟨url, m, resp.statusCode⟩)
        | .ok s => .error (.sync ⟨url, s.message, s.code⟩)
    else .ok resp

/-- C3: on a non-2xx status, `get` fails with a `SyncError` carrying the
request URL and the message and code decoded from the body payload; when
the body cannot be read or cannot be decoded, it still fails with a
`SyncError` whose message is the failure text and whose code is the HTTP
status. -/
theorem c3_remote_error_mapping (url : String) (resp : HttpResponse)
    (decodeStatus : String → Except String RStatus)
    (hc : ¬(200 ≤ resp.statusCode ∧ resp.statusCode ≤ 299)) :
    (∀ m, resp.bodyRead = .error m →
      get url (.ok resp) decodeStatus
        = .error (.sync ⟨url, m, resp.statusCode⟩))
    ∧ (∀ d m, resp.bodyRead = .ok d → decodeStatus d = .error m →
      get url (.ok resp) decodeStatus
        = .error (.sync ⟨url, m, resp.statusCode⟩))
    ∧ (∀ d s, resp.bodyRead = .ok d → decodeStatus d = .ok s →
      get url (.ok resp) decodeStatus
        = .error (.sync ⟨url, s.message, s.code⟩)) := by
  have h200 : resp.statusCode ≠ 200 := by omega
  refine ⟨?_, ?_, ?_⟩
  · intro m hm
    simp [get, if_pos h200, hm]
  · intro d m hd hm
    simp [get, if_pos h200, hd, hm]
  · intro d s hd hs
    simp [get, if_pos h200, hd, hs]

/-- The body of the concrete remote-error example of the claim. -/
def body404 : String := "\x7b\"message\":\"not found\",\"code\":404\x7d"

theorem c3_remote_error_mapping_witness :
    get "http://127.0.0.1:8001/x"
        (.ok { statusCode := 404, bodyRead := .ok body404 })
        (fun _ => .ok { message := "not found", code := 404 })
      = .error (.sync ⟨"http://127.0.0.1:8001/x", "not found", 404⟩) :=
  (c3_remote_error_mapping "http://127.0.0.1:8001/x"
    { statusCode := 404, bodyRead := .ok body404 }
    (fun _ => .ok { message := "not found", code := 404 })
    (by decide)).2.2 body404 { message := "not found", code := 404 } rfl rfl

/-- Package-level defaults from endpoints.go (lines 28-36); durations are
`time.Duration` nanosecond counts. -/
def DefaultAPIAddr : String := "127.0.0.1:8001"

def DefaultNamespace : String := "default"

def defaultSyncInterval : Int := 30 * 1000000000

def defaultRetryDelay : Int := 5 * 1000000000

/-- `Config` from endpoints.go.  The Go nil client and nil logger are
`none`. -/
structure Config where
  APIAddr : String
  Client : Option HClient
  ErrorLog : Option ELog
  Namespace : String
  RetryDelay : Int
  Service : String
  SyncInterval : Int
deriving DecidableEq

/-- `Config.setDefaults` from endpoints.go (lines 188-207): each unset
field is written back into the caller's config. -/
def Config.setDefaults (c : Config) : Config :=
  let c1 := if c.APIAddr = "" then { c with APIAddr := DefaultAPIAddr } else c
  let c2 := if c1.Client = none then
    { c1 with Client := some HClient.defaultClient } else c1
  let c3 := if c2.ErrorLog = none then
    { c2 with ErrorLog := some ELog.stderrLogger } else c2
  let c4 := if c3.Namespace = "" then
    { c3 with Namespace := DefaultNamespace } else c3
  let c5 := if c4.RetryDelay ≤ 0 then
    { c4 with RetryDelay := defaultRetryDelay } else c4
  if c5.SyncInterval ≤ 0 then
    { c5 with SyncInterval := defaultSyncInterval } else c5

/-- `New` from endpoints.go (lines 114-127).  Go mutates the caller's
`*Config` in place via `config.setDefaults()`; the mutated config is
returned as the second component so the caller's view is explicit. -/
def New (config : Config) : LoadBalancer × Config :=
  let c := config.setDefaults
  ({ apiAddr := c.APIAddr, client := c.Client, errorLog := c.ErrorLog,
     nspace := c.Namespace, retryDelay := c.RetryDelay,
     service := c.Service, syncInterval := c.SyncInterval,
     currentEndpoint := 0, endpoints := [] }, c)

/-- C10: `New` writes the defaults back through the caller's config for
every field left unset; a `RetryDelay` or `SyncInterval` that is zero or
negative is replaced by its default; `Service` is never touched; the new
balancer starts with cursor 0 and an empty set. -/
theorem c10_new_mutates_config (c : Config) :
    (New c).2.APIAddr = (if c.APIAddr = "" then DefaultAPIAddr else c.APIAddr)
    ∧ (New c).2.Client
        = (if c.Client = none then some HClient.defaultClient else c.Client)
    ∧ (New c).2.ErrorLog
        = (if c.ErrorLog = none then some ELog.stderrLogger else c.ErrorLog)
    ∧ (New c).2.Namespace
        = (if c.Namespace = "" then DefaultNamespace else c.Namespace)
    ∧ (New c).2.RetryDelay
        = (if c.RetryDelay ≤ 0 then defaultRetryDelay else c.RetryDelay)
    ∧ (New c).2.SyncInterval
        = (if c.SyncInterval ≤ 0 then defaultSyncInterval else c.SyncInterval)
    ∧ (New c).2.Service = c.Service
    ∧ (New c).1.currentEndpoint = 0
    ∧ (New c).1.endpoints = [] := by
  obtain ⟨a, cl, el, ns, rd, sv, si⟩ := c
  by_cases h1 : a = "" <;> by_cases h2 : cl = none <;>
    by_cases h3 : el = none <;> by_cases h4 : ns = "" <;>
    by_cases h5 : rd ≤ 0 <;> by_cases h6 : si ≤ 0 <;>
    simp [New, Config.setDefaults, h1, h2, h3, h4, h5, h6]

end Endpoints
